import Mathlib

/-!
Shallow embedding of the settlement-handshake core of the dmsg transport
package (pkg/transport/handshake.go): the entry/signature data model, the
incoming-entry validation, the initiator and responder handshake bodies,
and the `Do` bounded executor.

Modelling conventions:
- Machine-level identifiers (public keys, secret keys, signatures, UUIDs)
  are modelled as `Nat`; the all-zero UUID sentinel is `0`, the null
  signature is `0`.
- The external cipher package (signing, verification, canonical binary
  encoding) is a parameter bundled into a `Crypto` structure, mirroring
  that handshake.go consumes it as a black box.
- Stream I/O is made explicit: a handshake body receives the outcome of
  its single JSON decode (`Except String SignedEntry`, errors being the
  decoder's error text) and of its single JSON encode (`Option String`,
  `some e` meaning the encoder failed with error `e`), and records every
  encode attempt it makes in a `wrote` log.
- The discovery client is an oracle `DiscoveryCall → Option String`
  (`none` = success, `some e` = the call returned error `e`); the calls
  actually issued are recorded in a `discCalls` log.
-/

namespace Dmsg

abbrev PubKey := Nat
abbrev SecKey := Nat
abbrev Sig := Nat
abbrev UUID := Nat

/-- `cipher.Sig.Null()`: the zero value is the null (absent) signature. -/
def Sig.Null (s : Sig) : Bool := s == 0

/-- The `Entry` record of pkg/transport: id, edges `[2]cipher.PubKey`
(modelled as an ordered pair), transport type tag, public flag. -/
structure Entry where
  id : UUID
  edges : PubKey × PubKey
  typ : String
  public : Bool
deriving DecidableEq, Repr

/-- `SignedEntry`: an Entry plus two positional signatures. -/
structure SignedEntry where
  entry : Entry
  signatures : Sig × Sig
deriving DecidableEq, Repr

/-- Positional access to `Signatures[idx]` for `idx ∈ {0, 1}`. -/
def sigAt (sE : SignedEntry) (idx : Nat) : Sig :=
  if idx = 0 then sE.signatures.1 else sE.signatures.2

/-- The external cipher collaborator: canonical binary encoding of an
Entry (`Entry.ToBinary`), signing, and
`cipher.VerifyPubKeySignedPayload` (`none` = signature valid, `some e` =
verification failed with error `e`). -/
structure Crypto where
  toBinary : Entry → List Nat
  sign : SecKey → List Nat → Sig
  verify : PubKey → Sig → List Nat → Option String

/-- `Entry.Signature(secKey)`: sign the entry's canonical encoding. -/
def Entry.Signature (C : Crypto) (sk : SecKey) (e : Entry) : Sig :=
  C.sign sk (C.toBinary e)

/-- The stream capability consumed by the handshake: `tr.Local()`,
`tr.Remote()`, `tr.Type()`. -/
structure Transport where
  Local : PubKey
  Remote : PubKey
  Typ : String
deriving DecidableEq, Repr

/-- The manager state a handshake touches: the configured secret key and
the local entry registry. -/
structure Manager where
  secKey : SecKey
  entries : List Entry
deriving DecidableEq, Repr

/-- A call made to the discovery client. -/
inductive DiscoveryCall where
  | registerTransports (sEntry : SignedEntry)
  | updateStatuses (id : UUID) (isUp : Bool)
deriving DecidableEq, Repr

/-- `verifySig(sEntry, idx, pk)`: verify `Signatures[idx]` against `pk`
over the entry's canonical encoding. -/
def verifySig (C : Crypto) (sE : SignedEntry) (idx : Nat) (pk : PubKey) : Option String :=
  C.verify pk (sigAt sE idx) (C.toBinary sE.entry)

/-- `validateEntry(sEntry, tr)`: the responder's four ordered,
short-circuiting checks on the initiator's first message. -/
def validateEntry (C : Crypto) (sE : SignedEntry) (tr : Transport) : Option String :=
  if sE.entry.typ ≠ tr.Typ then some "invalid entry type"
  else if sE.entry.edges ≠ (tr.Remote, tr.Local) then some "invalid entry edges"
  else if Sig.Null (sigAt sE 0) then some "invalid entry signature"
  else verifySig C sE 0 tr.Remote

/-- Modelled from the spec: `Manager.walkEntries` is not among the
visible source files. Spec §4.6: "find(predicate) -> Entry | none:
linear scan returning the first structural match". -/
def walkEntries (entries : List Entry) (p : Entry → Bool) : Option Entry :=
  entries.find? p

/-- Modelled from the spec: `Manager.addEntry` is not among the visible
source files. Spec §4.6: "add(entry): inserts". -/
def addEntry (entries : List Entry) (e : Entry) : List Entry :=
  entries ++ [e]

/-- Outcome of one responder handshake body: the returned value, the
final registry, the discovery calls issued, and the encode attempts. -/
structure RespResult where
  result : Except String Entry
  finalEntries : List Entry
  discCalls : List DiscoveryCall
  wrote : List SignedEntry

/-- `settlementResponderHandshake(tm, tr)`: decode one SignedEntry,
validate it, fill signature position 1, decide novelty by structural
equality against the registry, make at most one discovery call when the
entry is public, write the fully signed entry back, and insert the entry
into the registry when it was new. -/
def settlementResponderHandshake (C : Crypto) (disc : DiscoveryCall → Option String)
    (readMsg : Except String SignedEntry) (writeErr : Option String)
    (tm : Manager) (tr : Transport) : RespResult :=
  match readMsg with
  | Except.error e => ⟨Except.error ("read: " ++ e), tm.entries, [], []⟩
  | Except.ok sE0 =>
    match validateEntry C sE0 tr with
    | some e => ⟨Except.error e, tm.entries, [], []⟩
    | none =>
      -- sEntry.Signatures[1] = sEntry.Entry.Signature(tm.config.SecKey)
      let sEntry : SignedEntry :=
        { entry := sE0.entry
          signatures := (sE0.signatures.1, Entry.Signature C tm.secKey sE0.entry) }
      -- newEntry := tm.walkEntries(func(e) { return *e == *sEntry.Entry }) == nil
      let newEntry : Bool :=
        (walkEntries tm.entries (fun e => decide (e = sEntry.entry))).isNone
      let call? : Option DiscoveryCall :=
        if sEntry.entry.public then
          if !newEntry then some (DiscoveryCall.updateStatuses sEntry.entry.id true)
          else some (DiscoveryCall.registerTransports sEntry)
        else none
      let discErr : Option String :=
        match call? with
        | some c => disc c
        | none => none
      match discErr with
      | some e => ⟨Except.error ("entry set: " ++ e), tm.entries, call?.toList, []⟩
      | none =>
        match writeErr with
        | some e => ⟨Except.error ("write: " ++ e), tm.entries, call?.toList, [sEntry]⟩
        | none =>
          ⟨Except.ok sEntry.entry,
           if newEntry then addEntry tm.entries sEntry.entry else tm.entries,
           call?.toList, [sEntry]⟩

/-- Outcome of one initiator handshake body. -/
structure InitResult where
  result : Except String Entry
  finalEntries : List Entry
  wrote : List SignedEntry

/-- `settlementInitiatorHandshake(id, public)`: build the entry with
edges `[local, remote]`, generate a fresh id (`freshId`, the oracle for
`uuid.New()`) when `id` is the all-zero sentinel, sign position 0, send,
decode the reply, verify the reply's signature 1 against the remote
identity, and add the entry to the registry when the id was freshly
generated.

In the Go source the decode target `sEntry` holds a pointer to the very
`entry` that was constructed and sent, so decoding the reply overwrites
that entry in place: the entry passed to `tm.addEntry` and returned to
the caller is the reply's entry, not the originally constructed one. -/
def settlementInitiatorHandshake (C : Crypto) (id : UUID) (public : Bool)
    (freshId : UUID) (writeErr : Option String) (readMsg : Except String SignedEntry)
    (tm : Manager) (tr : Transport) : InitResult :=
  let entry0 : Entry := { id := id, edges := (tr.Local, tr.Remote), typ := tr.Typ, public := public }
  -- newEntry := id == uuid.UUID{}
  let newEntry : Bool := id == 0
  let entry := if newEntry then { entry0 with id := freshId } else entry0
  -- Signatures: [2]cipher.Sig{entry.Signature(sk)}; position 1 is the null sig
  let sEntry : SignedEntry := { entry := entry, signatures := (Entry.Signature C tm.secKey entry, 0) }
  match writeErr with
  | some e => ⟨Except.error ("write: " ++ e), tm.entries, [sEntry]⟩
  | none =>
    match readMsg with
    | Except.error e => ⟨Except.error ("read: " ++ e), tm.entries, [sEntry]⟩
    | Except.ok reply =>
      match verifySig C reply 1 tr.Remote with
      | some e => ⟨Except.error e, tm.entries, [sEntry]⟩
      | none =>
        ⟨Except.ok reply.entry,
         if newEntry then addEntry tm.entries reply.entry else tm.entries,
         [sEntry]⟩

/-- `settlementHandshake.Do(tm, tr, timeout)`: spawn the handshake as a
goroutine and `select` between its completion and `time.After(timeout)`.
The spawned task is never cancelled, so it runs to completion and its
state effect (`(handshake tm).1`) always takes place; only the value
returned to the caller depends on the race. Time is made explicit:
`time.After(timeout)` fires at `timeout` — with no special case for a
zero timeout — and the task completes at `taskTime`; the timer branch is
taken when the timer fires strictly first, and a tie is resolved in the
task's favour (Go's `select` picks a ready case arbitrarily; this is the
resolution most favourable to the caller). -/
def Do {σ : Type} (handshake : σ → σ × Except String Entry) (tm : σ)
    (timeout : Nat) (taskTime : Nat) : σ × Except String Entry :=
  let r := handshake tm
  if timeout < taskTime then (r.1, Except.error "deadline exceeded") else r

/-! Concrete fixtures used by witnesses and counterexamples: a toy
cipher in which signing with secret key `k` verifies exactly under
public key `k`, a transport, and small entries. -/

/-- Toy cipher model: `sign sk bs = sk + bs.length + 1`, and `verify`
accepts exactly that value for `pk = sk`. -/
def cryptoT : Crypto :=
  { toBinary := fun e => [e.id]
    sign := fun sk bs => sk + bs.length + 1
    verify := fun pk s bs => if s = pk + bs.length + 1 then none else some "sig check failed" }

def tr0 : Transport := { Local := 1, Remote := 2, Typ := "dmsg" }

def tm0 : Manager := { secKey := 1, entries := [] }

/-- A well-formed first message for `tr0`: edges `[remote, local]` as the
responder expects, signature 0 valid under `tr0.Remote = 2`. -/
def sE0cx : SignedEntry :=
  { entry := { id := 7, edges := (2, 1), typ := "dmsg", public := true }
    signatures := (4, 0) }

/-- A handshake task that inserts `sE0cx.entry` into the registry and
succeeds; used to observe the uncancelled background effect of `Do`. -/
def taskAdd : Manager → Manager × Except String Entry :=
  fun tm => ({ tm with entries := addEntry tm.entries sE0cx.entry }, Except.ok sE0cx.entry)

/-- A responder reply whose entry (id 11, edges `(9, 9)`, another type,
private) differs in every field from anything the initiator constructs
for `tr0`, yet whose signature 1 verifies under `tr0.Remote` in the toy
cipher. -/
def replyFlipped : SignedEntry :=
  { entry := { id := 11, edges := (9, 9), typ := "other", public := false }
    signatures := (9, 4) }

/-- C1: `validateEntry` performs exactly four checks in order,
short-circuiting on the first failure, each with its own error: type
mismatch gives the invalid-type error; edges not equal to
`[remote, local]` (positional match) gives the invalid-edges error; a
null signature 0 gives the fixed missing-signature error, independent of
the verifier; otherwise the result is exactly the verifier's verdict on
signature 0 against `edges[0]`'s key (= the remote identity) over the
canonical encoding, and validation succeeds iff all four checks pass. -/
theorem C1_validateEntry_four_checks (C : Crypto) (sE : SignedEntry) (tr : Transport) :
    (sE.entry.typ ≠ tr.Typ → validateEntry C sE tr = some "invalid entry type") ∧
    (sE.entry.typ = tr.Typ → sE.entry.edges ≠ (tr.Remote, tr.Local) →
      validateEntry C sE tr = some "invalid entry edges") ∧
    (sE.entry.typ = tr.Typ → sE.entry.edges = (tr.Remote, tr.Local) →
      Sig.Null (sigAt sE 0) = true →
      validateEntry C sE tr = some "invalid entry signature") ∧
    (sE.entry.typ = tr.Typ → sE.entry.edges = (tr.Remote, tr.Local) →
      Sig.Null (sigAt sE 0) = false →
      validateEntry C sE tr = C.verify tr.Remote (sigAt sE 0) (C.toBinary sE.entry)) ∧
    (validateEntry C sE tr = none ↔
      sE.entry.typ = tr.Typ ∧ sE.entry.edges = (tr.Remote, tr.Local) ∧
      Sig.Null (sigAt sE 0) = false ∧
      C.verify tr.Remote (sigAt sE 0) (C.toBinary sE.entry) = none) := by
  unfold validateEntry verifySig
  refine ⟨?_, ?_, ?_, ?_, ?_⟩
  · intro h; simp [h]
  · intro h1 h2; simp [h1, h2]
  · intro h1 h2 h3; simp [h1, h2, h3]
  · intro h1 h2 h3; simp [h1, h2, h3]
  · constructor
    · intro h
      by_cases h1 : sE.entry.typ = tr.Typ
      · by_cases h2 : sE.entry.edges = (tr.Remote, tr.Local)
        · by_cases h3 : Sig.Null (sigAt sE 0) = true
          · simp [h1, h2, h3] at h
          · simp [h1, h2, h3] at h
            exact ⟨h1, h2, by simpa using h3, h⟩
        · simp [h1, h2] at h
      · simp [h1] at h
    · rintro ⟨h1, h2, h3, h4⟩
      simp [h1, h2, h3, h4]

/-- Witness for C1: each of the four outcomes realized at a concrete
input. -/
theorem C1_witness :
    validateEntry cryptoT { sE0cx with entry := { sE0cx.entry with typ := "x" } } tr0
        = some "invalid entry type" ∧
    validateEntry cryptoT { sE0cx with entry := { sE0cx.entry with edges := (1, 2) } } tr0
        = some "invalid entry edges" ∧
    validateEntry cryptoT { sE0cx with signatures := (0, 0) } tr0
        = some "invalid entry signature" ∧
    validateEntry cryptoT sE0cx tr0 = none := by
  refine ⟨?_, ?_, ?_, ?_⟩
  · exact (C1_validateEntry_four_checks cryptoT _ tr0).1 (by decide)
  · exact (C1_validateEntry_four_checks cryptoT _ tr0).2.1 (by decide) (by decide)
  · exact (C1_validateEntry_four_checks cryptoT _ tr0).2.2.1 (by decide) (by decide) (by decide)
  · exact ((C1_validateEntry_four_checks cryptoT sE0cx tr0).2.2.2.2).mpr (by decide)

/-- C4: when validation of the received signed entry fails, the
responder handshake aborts with exactly that validation error, writes
nothing back, makes no discovery call, and leaves the registry
unchanged. -/
theorem C4_responder_validation_gate (C : Crypto) (disc : DiscoveryCall → Option String)
    (sE0 : SignedEntry) (writeErr : Option String) (tm : Manager) (tr : Transport)
    (err : String) (hval : validateEntry C sE0 tr = some err) :
    (settlementResponderHandshake C disc (Except.ok sE0) writeErr tm tr).result
        = Except.error err ∧
    (settlementResponderHandshake C disc (Except.ok sE0) writeErr tm tr).wrote = [] ∧
    (settlementResponderHandshake C disc (Except.ok sE0) writeErr tm tr).discCalls = [] ∧
    (settlementResponderHandshake C disc (Except.ok sE0) writeErr tm tr).finalEntries
        = tm.entries := by
  unfold settlementResponderHandshake
  simp [hval]

/-- Witness for C4: a type-mismatching entry aborts the responder with
the invalid-type error and no observable effect. -/
theorem C4_witness :
    validateEntry cryptoT { sE0cx with entry := { sE0cx.entry with typ := "x" } } tr0
        = some "invalid entry type" ∧
    (settlementResponderHandshake cryptoT (fun _ => none)
        (Except.ok { sE0cx with entry := { sE0cx.entry with typ := "x" } }) none tm0 tr0).result
      = Except.error "invalid entry type" ∧
    (settlementResponderHandshake cryptoT (fun _ => none)
        (Except.ok { sE0cx with entry := { sE0cx.entry with typ := "x" } }) none tm0 tr0).wrote
      = [] := by
  have h := C4_responder_validation_gate cryptoT (fun _ => none)
    { sE0cx with entry := { sE0cx.entry with typ := "x" } } none tm0 tr0
    "invalid entry type" (by decide)
  exact ⟨by decide, h.1, h.2.1⟩

/-- C2: after the responder signs position 1, the entry is new iff no
structurally equal entry (all fields) is in the registry; when the entry
is public, exactly one discovery call is made — register with the fully
signed entry when new, a status update marking the id as up otherwise —
and when it is private, no discovery call is made. -/
theorem C2_responder_novelty_and_discovery (C : Crypto) (disc : DiscoveryCall → Option String)
    (sE0 : SignedEntry) (writeErr : Option String) (tm : Manager) (tr : Transport)
    (hval : validateEntry C sE0 tr = none) :
    (sE0.entry.public = true →
      (settlementResponderHandshake C disc (Except.ok sE0) writeErr tm tr).discCalls
        = [if sE0.entry ∈ tm.entries
           then DiscoveryCall.updateStatuses sE0.entry.id true
           else DiscoveryCall.registerTransports
             { entry := sE0.entry
               signatures := (sE0.signatures.1, Entry.Signature C tm.secKey sE0.entry) }]) ∧
    (sE0.entry.public = false →
      (settlementResponderHandshake C disc (Except.ok sE0) writeErr tm tr).discCalls = []) := by
  have hmem : (walkEntries tm.entries (fun e => decide (e = sE0.entry))).isNone
      = !(decide (sE0.entry ∈ tm.entries)) := by
    unfold walkEntries
    rcases h : tm.entries.find? (fun e => decide (e = sE0.entry)) with _ | e
    · rw [List.find?_eq_none] at h
      have : sE0.entry ∉ tm.entries := fun hm => by simpa using h _ hm
      simp [this]
    · have hp := List.find?_some h
      have hm := List.mem_of_find?_eq_some h
      have : e = sE0.entry := by simpa using hp
      subst this
      simp [hm]
  constructor
  · intro hpub
    unfold settlementResponderHandshake
    simp only [hval]
    by_cases hin : sE0.entry ∈ tm.entries
    · simp [hmem, hin, hpub]
      rcases disc (DiscoveryCall.updateStatuses sE0.entry.id true) with _ | e
      · rcases writeErr with _ | e <;> simp
      · simp
    · simp [hmem, hin, hpub]
      rcases disc (DiscoveryCall.registerTransports
        { entry := sE0.entry
          signatures := (sE0.signatures.1, Entry.Signature C tm.secKey sE0.entry) }) with _ | e
      · rcases writeErr with _ | e <;> simp
      · simp
  · intro hpub
    unfold settlementResponderHandshake
    simp only [hval]
    simp [hpub]
    rcases writeErr with _ | e <;> simp

/-- Witness for C2: with an empty registry a public entry triggers
exactly one register call carrying both signatures; the same entry
already present triggers exactly one status-update call. -/
theorem C2_witness :
    validateEntry cryptoT sE0cx tr0 = none ∧
    (settlementResponderHandshake cryptoT (fun _ => none) (Except.ok sE0cx) none tm0 tr0).discCalls
      = [DiscoveryCall.registerTransports { entry := sE0cx.entry, signatures := (4, 3) }] ∧
    (settlementResponderHandshake cryptoT (fun _ => none) (Except.ok sE0cx) none
        { tm0 with entries := [sE0cx.entry] } tr0).discCalls
      = [DiscoveryCall.updateStatuses 7 true] := by
  refine ⟨by decide, ?_, ?_⟩
  · have h := (C2_responder_novelty_and_discovery cryptoT (fun _ => none) sE0cx none tm0 tr0
      (by decide)).1 rfl
    rw [h]; decide
  · have h := (C2_responder_novelty_and_discovery cryptoT (fun _ => none) sE0cx none
      { tm0 with entries := [sE0cx.entry] } tr0 (by decide)).1 rfl
    rw [h]; decide

/-- C3: whenever the discovery call made by the responder returns an
error, the handshake aborts with that error wrapped as "entry set", no
reply is written to the stream, and the registry is unchanged. -/
theorem C3_responder_discovery_error (C : Crypto) (disc : DiscoveryCall → Option String)
    (readMsg : Except String SignedEntry) (writeErr : Option String)
    (tm : Manager) (tr : Transport) (c : DiscoveryCall) (e : String)
    (hc : (settlementResponderHandshake C disc readMsg writeErr tm tr).discCalls = [c])
    (he : disc c = some e) :
    (settlementResponderHandshake C disc readMsg writeErr tm tr).result
        = Except.error ("entry set: " ++ e) ∧
    (settlementResponderHandshake C disc readMsg writeErr tm tr).wrote = [] ∧
    (settlementResponderHandshake C disc readMsg writeErr tm tr).finalEntries
        = tm.entries := by
  unfold settlementResponderHandshake at hc ⊢
  rcases readMsg with e' | sE0
  · simp at hc
  dsimp only at hc ⊢
  rcases hv : validateEntry C sE0 tr with _ | verr
  swap
  · rw [hv] at hc; simp at hc
  rw [hv] at hc
  dsimp only at hc ⊢
  repeat' split at hc
  all_goals simp_all

/-- Witness for C3: a failing register call makes the responder return
the wrapped "entry set" error with nothing written and the registry
untouched. -/
theorem C3_witness :
    (settlementResponderHandshake cryptoT (fun _ => some "boom") (Except.ok sE0cx) none tm0 tr0).discCalls
      = [DiscoveryCall.registerTransports { entry := sE0cx.entry, signatures := (4, 3) }] ∧
    (settlementResponderHandshake cryptoT (fun _ => some "boom") (Except.ok sE0cx) none tm0 tr0).result
      = Except.error "entry set: boom" ∧
    (settlementResponderHandshake cryptoT (fun _ => some "boom") (Except.ok sE0cx) none tm0 tr0).wrote
      = [] := by
  have h := C3_responder_discovery_error cryptoT (fun _ => some "boom") (Except.ok sE0cx) none
    tm0 tr0 (DiscoveryCall.registerTransports { entry := sE0cx.entry, signatures := (4, 3) })
    "boom" (by decide) rfl
  exact ⟨by decide, h.1, h.2.1⟩

/-- C5: when the input id is the all-zero sentinel the initiator sends
an entry carrying the freshly generated id and, exactly on the success
path, adds the returned entry to the registry; a non-sentinel input id
never mutates the registry; and any entry returned to the caller is the
entry of the responder's reply. -/
theorem C5_initiator_id_and_registry (C : Crypto) (id : UUID) (public : Bool)
    (freshId : UUID) (writeErr : Option String) (readMsg : Except String SignedEntry)
    (tm : Manager) (tr : Transport) :
    (id = 0 → ∀ m ∈ (settlementInitiatorHandshake C id public freshId writeErr readMsg tm tr).wrote,
        m.entry.id = freshId) ∧
    (id ≠ 0 →
      (settlementInitiatorHandshake C id public freshId writeErr readMsg tm tr).finalEntries
        = tm.entries) ∧
    (∀ err, (settlementInitiatorHandshake C id public freshId writeErr readMsg tm tr).result
        = Except.error err →
      (settlementInitiatorHandshake C id public freshId writeErr readMsg tm tr).finalEntries
        = tm.entries) ∧
    (∀ ent, (settlementInitiatorHandshake C id public freshId writeErr readMsg tm tr).result
        = Except.ok ent →
      (∃ reply, readMsg = Except.ok reply ∧ ent = reply.entry) ∧
      (id = 0 →
        (settlementInitiatorHandshake C id public freshId writeErr readMsg tm tr).finalEntries
          = addEntry tm.entries ent)) := by
  unfold settlementInitiatorHandshake
  refine ⟨?_, ?_, ?_, ?_⟩
  · intro h0 m hm
    subst h0
    rcases writeErr with _ | e1
    · rcases readMsg with e2 | reply
      · simp_all
      · rcases hv : verifySig C reply 1 tr.Remote with _ | verr <;> simp_all
    · simp_all
  · intro h0
    rcases writeErr with _ | e1
    · rcases readMsg with e2 | reply
      · simp_all
      · rcases hv : verifySig C reply 1 tr.Remote with _ | verr <;> simp_all
    · simp_all
  · intro err herr
    rcases writeErr with _ | e1
    · rcases readMsg with e2 | reply
      · simp_all
      · rcases hv : verifySig C reply 1 tr.Remote with _ | verr <;> simp_all
    · simp_all
  · intro ent hent
    rcases writeErr with _ | e1
    · rcases readMsg with e2 | reply
      · simp_all
      · rcases hv : verifySig C reply 1 tr.Remote with _ | verr
        · simp [hv] at hent
          refine ⟨⟨reply, rfl, hent.symm⟩, ?_⟩
          intro h0
          subst h0
          simp [hv, hent]
        · simp_all
    · simp_all

/-- Witness for C5: a sentinel-id initiator handshake that succeeds
sends the generated id 9, returns the reply's entry, and appends exactly
that entry to its registry. -/
theorem C5_witness :
    (settlementInitiatorHandshake cryptoT 0 true 9 none
        (Except.ok { entry := { id := 9, edges := (1, 2), typ := "dmsg", public := true }
                     signatures := (3, 4) }) tm0 tr0).result
      = Except.ok { id := 9, edges := (1, 2), typ := "dmsg", public := true } ∧
    (settlementInitiatorHandshake cryptoT 0 true 9 none
        (Except.ok { entry := { id := 9, edges := (1, 2), typ := "dmsg", public := true }
                     signatures := (3, 4) }) tm0 tr0).finalEntries
      = [{ id := 9, edges := (1, 2), typ := "dmsg", public := true }] := by
  have h := (C5_initiator_id_and_registry cryptoT 0 true 9 none
    (Except.ok { entry := { id := 9, edges := (1, 2), typ := "dmsg", public := true }
                 signatures := (3, 4) }) tm0 tr0).2.2.2
    { id := 9, edges := (1, 2), typ := "dmsg", public := true } (by rfl)
  exact ⟨by rfl, by rw [h.2 rfl]; decide⟩

/-- C6: every initiator failure leaves the registry unchanged, and the
errors are classified as specified: a stream write failure yields the
error wrapped with "write:", a read failure the error wrapped with
"read:", and a reply whose signature 1 does not verify against the
remote identity yields exactly the signature-verification error. -/
theorem C6_initiator_failure_classification (C : Crypto) (id : UUID) (public : Bool)
    (freshId : UUID) (writeErr : Option String) (readMsg : Except String SignedEntry)
    (tm : Manager) (tr : Transport) :
    (∀ e, writeErr = some e →
      (settlementInitiatorHandshake C id public freshId writeErr readMsg tm tr).result
        = Except.error ("write: " ++ e)) ∧
    (∀ e, writeErr = none → readMsg = Except.error e →
      (settlementInitiatorHandshake C id public freshId writeErr readMsg tm tr).result
        = Except.error ("read: " ++ e)) ∧
    (∀ reply e, writeErr = none → readMsg = Except.ok reply →
      verifySig C reply 1 tr.Remote = some e →
      (settlementInitiatorHandshake C id public freshId writeErr readMsg tm tr).result
        = Except.error e) ∧
    (∀ e, (settlementInitiatorHandshake C id public freshId writeErr readMsg tm tr).result
        = Except.error e →
      (settlementInitiatorHandshake C id public freshId writeErr readMsg tm tr).finalEntries
        = tm.entries) := by
  unfold settlementInitiatorHandshake
  refine ⟨?_, ?_, ?_, ?_⟩
  · intro e he
    subst he
    simp
  · intro e hw hr
    subst hw; subst hr
    simp
  · intro reply e hw hr hv
    subst hw; subst hr
    simp [hv]
  · intro e he
    rcases writeErr with _ | e1
    · rcases readMsg with e2 | reply
      · simp_all
      · rcases hv : verifySig C reply 1 tr.Remote with _ | verr <;> simp_all
    · simp_all

/-- Witness for C6: the three failure shapes realized at concrete
inputs, each leaving the registry of `tm0` empty. -/
theorem C6_witness :
    (settlementInitiatorHandshake cryptoT 0 true 9 (some "pipe") (Except.error "x") tm0 tr0).result
      = Except.error "write: pipe" ∧
    (settlementInitiatorHandshake cryptoT 0 true 9 none (Except.error "eof") tm0 tr0).result
      = Except.error "read: eof" ∧
    (settlementInitiatorHandshake cryptoT 0 true 9 none
        (Except.ok { entry := { id := 9, edges := (1, 2), typ := "dmsg", public := true }
                     signatures := (3, 5) }) tm0 tr0).result
      = Except.error "sig check failed" ∧
    (settlementInitiatorHandshake cryptoT 0 true 9 none
        (Except.ok { entry := { id := 9, edges := (1, 2), typ := "dmsg", public := true }
                     signatures := (3, 5) }) tm0 tr0).finalEntries = [] := by
  refine ⟨?_, ?_, ?_, ?_⟩
  · exact (C6_initiator_failure_classification cryptoT 0 true 9 (some "pipe")
      (Except.error "x") tm0 tr0).1 "pipe" rfl
  · exact (C6_initiator_failure_classification cryptoT 0 true 9 none
      (Except.error "eof") tm0 tr0).2.1 "eof" rfl rfl
  · exact (C6_initiator_failure_classification cryptoT 0 true 9 none
      (Except.ok { entry := { id := 9, edges := (1, 2), typ := "dmsg", public := true }
                   signatures := (3, 5) }) tm0 tr0).2.2.1 _ "sig check failed" rfl rfl (by decide)
  · exact (C6_initiator_failure_classification cryptoT 0 true 9 none
      (Except.ok { entry := { id := 9, edges := (1, 2), typ := "dmsg", public := true }
                   signatures := (3, 5) }) tm0 tr0).2.2.2 "sig check failed" (by rfl)

/-- Helper: `validateEntry` succeeds iff all four checks pass. -/
theorem validateEntry_none_iff (C : Crypto) (sE : SignedEntry) (tr : Transport) :
    validateEntry C sE tr = none ↔
      sE.entry.typ = tr.Typ ∧ sE.entry.edges = (tr.Remote, tr.Local) ∧
      Sig.Null (sigAt sE 0) = false ∧
      C.verify tr.Remote (sigAt sE 0) (C.toBinary sE.entry) = none := by
  unfold validateEntry verifySig
  constructor
  · intro h
    by_cases h1 : sE.entry.typ = tr.Typ
    · by_cases h2 : sE.entry.edges = (tr.Remote, tr.Local)
      · by_cases h3 : Sig.Null (sigAt sE 0) = true
        · simp [h1, h2, h3] at h
        · simp [h1, h2, h3] at h
          exact ⟨h1, h2, by simpa using h3, h⟩
      · simp [h1, h2] at h
    · simp [h1] at h
  · rintro ⟨h1, h2, h3, h4⟩
    simp [h1, h2, h3, h4]

/-- Counterexample for C7: `Do` with a zero timeout around a task that
completes at time 1 returns the deadline-exceeded error instead of the
task's result — `time.After(0)` fires immediately, so a zero timeout is
an immediate deadline, not "no bound". -/
theorem C7_counterexample :
    (Do taskAdd tm0 0 1).2 = Except.error "deadline exceeded" := by rfl

/-- C7 (amended): a zero timeout does not wait indefinitely: whenever
the handshake task takes any positive time, `Do` with timeout 0 returns
the deadline-exceeded error, while the uncancelled task's state effect
still takes place. -/
theorem C7_zero_timeout_immediate {σ : Type} (handshake : σ → σ × Except String Entry)
    (tm : σ) (taskTime : Nat) (ht : 0 < taskTime) :
    (Do handshake tm 0 taskTime).2 = Except.error "deadline exceeded" ∧
    (Do handshake tm 0 taskTime).1 = (handshake tm).1 := by
  unfold Do
  simp [ht]

/-- Witness for the amended C7 at taskTime 1. -/
theorem C7_witness :
    0 < 1 ∧ (Do taskAdd tm0 0 1).2 = Except.error "deadline exceeded" :=
  ⟨by decide, (C7_zero_timeout_immediate taskAdd tm0 1 (by decide)).1⟩

/-- C8: `Do` races the handshake task against the timer: the task is
never cancelled, so its state effect always takes place; if the timer
fires strictly first the caller gets the distinct deadline-exceeded
error and the task's result is discarded; if the task completes first
its result or error is returned directly. -/
theorem C8_do_race {σ : Type} (handshake : σ → σ × Except String Entry) (tm : σ)
    (timeout taskTime : Nat) :
    (Do handshake tm timeout taskTime).1 = (handshake tm).1 ∧
    (timeout < taskTime →
      (Do handshake tm timeout taskTime).2 = Except.error "deadline exceeded") ∧
    (taskTime ≤ timeout → Do handshake tm timeout taskTime = handshake tm) := by
  unfold Do
  refine ⟨?_, ?_, ?_⟩
  · by_cases h : timeout < taskTime <;> simp [h]
  · intro h
    simp [h]
  · intro h
    have h' : ¬ timeout < taskTime := not_lt.mpr h
    simp [h']

/-- Witness for C8: a timed-out run still inserts into the registry
while returning the deadline error; a run that finishes in time returns
the task's own outcome. -/
theorem C8_witness :
    (2 < 3 ∧ (Do taskAdd tm0 2 3).2 = Except.error "deadline exceeded" ∧
      (Do taskAdd tm0 2 3).1.entries = [sE0cx.entry]) ∧
    (3 ≤ 5 ∧ Do taskAdd tm0 5 3 = taskAdd tm0) := by
  refine ⟨⟨by decide, (C8_do_race taskAdd tm0 2 3).2.1 (by decide), ?_⟩,
    by decide, (C8_do_race taskAdd tm0 5 3).2.2 (by decide)⟩
  rw [(C8_do_race taskAdd tm0 2 3).1]
  decide

/-- Counterexample for C9: a successful initiator handshake can return
an entry whose edges are not in `[initiator, responder]` order — the
initiator never re-checks the reply's edges, so the claim's "every entry
returned by a successful handshake" clause fails. -/
theorem C9_counterexample :
    (settlementInitiatorHandshake cryptoT 7 true 0 none (Except.ok replyFlipped) tm0 tr0).result
      = Except.ok replyFlipped.entry ∧
    replyFlipped.entry.edges ≠ (tr0.Local, tr0.Remote) :=
  ⟨by rfl, by decide⟩

/-- C9 (amended): the initiator constructs and sends entries with edges
exactly `[local, remote]`; the responder's validation accepts an entry
only if its edges are exactly `[remote, local]`; and every entry
returned by a successful responder handshake has edges in
`[initiator, responder]` order. (The entry returned by a successful
initiator handshake is the responder's reply and its edges are not
re-checked.) -/
theorem C9_edges_orientation (C : Crypto) (id : UUID) (public : Bool) (freshId : UUID)
    (writeErr : Option String) (readMsgI readMsgR : Except String SignedEntry)
    (disc : DiscoveryCall → Option String) (tm : Manager) (tr : Transport) (sE : SignedEntry) :
    (∀ m ∈ (settlementInitiatorHandshake C id public freshId writeErr readMsgI tm tr).wrote,
        m.entry.edges = (tr.Local, tr.Remote)) ∧
    (validateEntry C sE tr = none → sE.entry.edges = (tr.Remote, tr.Local)) ∧
    (∀ ent, (settlementResponderHandshake C disc readMsgR writeErr tm tr).result
        = Except.ok ent → ent.edges = (tr.Remote, tr.Local)) := by
  refine ⟨?_, ?_, ?_⟩
  · intro m hm
    unfold settlementInitiatorHandshake at hm
    rcases writeErr with _ | e1
    · rcases readMsgI with e2 | reply
      · rcases id with _ | n <;> simp_all
      · rcases hv : verifySig C reply 1 tr.Remote with _ | verr <;>
          rcases id with _ | n <;> simp_all
    · rcases id with _ | n <;> simp_all
  · intro h
    exact ((validateEntry_none_iff C sE tr).mp h).2.1
  · intro ent hent
    unfold settlementResponderHandshake at hent
    rcases readMsgR with e' | sE0
    · simp at hent
    dsimp only at hent
    rcases hv : validateEntry C sE0 tr with _ | verr
    swap
    · rw [hv] at hent; simp at hent
    rw [hv] at hent
    have hedges := ((validateEntry_none_iff C sE0 tr).mp hv).2.1
    dsimp only at hent
    repeat' split at hent
    all_goals simp_all

/-- Witness for the amended C9: a concrete validated entry has edges
`(remote, local)`, via the validation clause of the theorem. -/
theorem C9_witness :
    validateEntry cryptoT sE0cx tr0 = none ∧
    sE0cx.entry.edges = (tr0.Remote, tr0.Local) :=
  ⟨by decide,
   (C9_edges_orientation cryptoT 0 true 9 none (Except.error "x") (Except.error "x")
     (fun _ => none) tm0 tr0 sE0cx).2.1 (by decide)⟩

/-- C10: the initiator never compares the reply against the entry it
sent: any reply whose signature 1 verifies against the remote identity
is accepted verbatim — the returned entry, and when the input id was the
sentinel also the entry appended to the registry, is exactly the reply's
entry, whatever its id, edges, type and public fields. -/
theorem C10_initiator_accepts_any_reply (C : Crypto) (id : UUID) (public : Bool)
    (freshId : UUID) (reply : SignedEntry) (tm : Manager) (tr : Transport)
    (hv : verifySig C reply 1 tr.Remote = none) :
    (settlementInitiatorHandshake C id public freshId none (Except.ok reply) tm tr).result
      = Except.ok reply.entry ∧
    (id = 0 →
      (settlementInitiatorHandshake C id public freshId none (Except.ok reply) tm tr).finalEntries
        = addEntry tm.entries reply.entry) := by
  unfold settlementInitiatorHandshake
  constructor
  · simp [hv]
  · intro h0
    subst h0
    simp [hv]

/-- Witness for C10: a reply whose id, edges, type and public flag all
differ from the entry the initiator constructed is returned verbatim and
stored in the registry. -/
theorem C10_witness :
    verifySig cryptoT replyFlipped 1 tr0.Remote = none ∧
    (settlementInitiatorHandshake cryptoT 0 true 9 none (Except.ok replyFlipped) tm0 tr0).result
      = Except.ok replyFlipped.entry ∧
    (settlementInitiatorHandshake cryptoT 0 true 9 none (Except.ok replyFlipped) tm0 tr0).finalEntries
      = [replyFlipped.entry] := by
  have h := C10_initiator_accepts_any_reply cryptoT 0 true 9 replyFlipped tm0 tr0 (by decide)
  exact ⟨by decide, h.1, by rw [h.2 rfl]; decide⟩

end Dmsg
